import Mathlib

/-!
# Almora Radar — verification of the ingestion-and-fan-out pipeline

Shallow embedding of the core pipeline of the Almora-Radar repository:

* `src/lib/ai/gemini.ts` — normalizer (`processArticleWithGemini`,
  `validateGeminiResponse`),
* `src/lib/geocoding/nominatim.ts` — location resolver (`geocodeLocation`),
* `src/lib/utils/validators.ts` / `text.ts` — `validateCoordinates`,
  `isCategoryValid`, `countWords`,
* `src/app/api/process/route.ts` — event store writer and notification gate,
* `src/lib/notifications/trigger.ts` — `shouldTriggerNotification`,
  `getNotificationRecipients`,
* `src/lib/utils/geo.ts` — `calculateDistance`,
* `src/app/api/scrape/route.ts` and `src/lib/scrapers/base-scraper.ts` —
  fetch orchestrator and `validateArticle`,
* `src/lib/db/setup-indexes.ts` — the unique index on `source_link`.

External effects (the Gemini call, the Nominatim HTTP request, MongoDB) are
modelled as explicit environments (functions from the attempt index to the
outcome of that attempt, or an explicit list-of-documents database state).
JavaScript dynamic values appearing in the data path (parsed JSON, `NaN`
propagation in misapplied calls) are modelled by small inductive types.
Timing-only behaviour (backoff delays, the Nominatim rate limiter) has no
observable effect on the values computed and is not modelled.
-/

namespace Almora

/-! ## JSON values (the parsed Gemini response)

A parsed JSON value as produced by `JSON.parse` in `gemini.ts`.  Numbers are
rationals (the theorems below never depend on float rounding; `NaN` cannot be
produced by `JSON.parse`). -/

inductive JVal : Type where
  | jnull : JVal
  | jbool (b : Bool) : JVal
  | jnum (q : ℚ) : JVal
  | jstr (s : String) : JVal
  | jarr (xs : List JVal) : JVal

mutual

/-- JavaScript string coercion `String(v)` as used by `+` on a string operand.
Only the `jstr` case is relied on by any theorem; number formatting is
approximated by `toString` on the rational, and an array stringifies as its
comma-joined elements. -/
def jsToString : JVal → String
  | .jnull => "null"
  | .jbool true => "true"
  | .jbool false => "false"
  | .jnum q => toString q
  | .jstr s => s
  | .jarr xs => jsToStringList xs

def jsToStringList : List JVal → String
  | [] => ""
  | [x] => jsToString x
  | x :: y :: rest => jsToString x ++ "," ++ jsToStringList (y :: rest)

end

/-- JavaScript truthiness test (`if (v)`), for the values representable as
`JVal`.  Used for `gemini.incident_date || body.publishTime` in the process
route. -/
def jsFalsy : JVal → Bool
  | .jnull => true
  | .jbool b => !b
  | .jnum q => decide (q = 0)
  | .jstr s => decide (s = "")
  | .jarr _ => false

/-! ## Categories and plain validators (`src/types/index.ts`,
`src/lib/utils/validators.ts`) -/

/-- `CATEGORIES` from `src/types/index.ts`. -/
def CATEGORIES : List String :=
  ["accident", "crime", "wildlife", "festival", "celebrity", "emergency",
   "weather", "public"]

/-- `isCategoryValid` from `src/lib/utils/validators.ts`:
`CATEGORIES.includes(category)`. -/
def isCategoryValid (category : String) : Bool :=
  CATEGORIES.contains category

/-- JavaScript `String.prototype.trim()`: drop leading and trailing
whitespace.  (Defined structurally over the character list so that it
computes by `rfl`; it agrees with the library `String.trim`.) -/
def jsTrim (s : String) : String :=
  ⟨((s.data.dropWhile Char.isWhitespace).reverse.dropWhile
      Char.isWhitespace).reverse⟩

/-- `countWords` from `src/lib/utils/text.ts`: trim, split on whitespace,
drop empty fragments.  (Only its existence matters here: in
`validateGeminiResponse` its results feed `console.warn` and never affect
validity.) -/
def countWords (text : String) : ℕ :=
  (((jsTrim text).split Char.isWhitespace).filter (fun w => w.length > 0)).length

/-! ## `validateGeminiResponse` (`src/lib/ai/gemini.ts`, lines 103–157)

The source function takes the parsed JSON object, throws on any validation
failure, and otherwise mutates the object, stamping `source_link` and
`raw_text` onto it.  We model the parsed object as a record of optional JSON
fields (`none` = key absent or `undefined`, `some .jnull` = key null) and the
throw/mutate behaviour as an `Option`-returning function. -/

structure RawGeminiResponse : Type where
  title : Option JVal
  clean_title : Option JVal
  summary_en : Option JVal
  summary_hi : Option JVal
  category : Option JVal
  location_text : Option JVal
  priority_score : Option JVal
  keywords : Option JVal
  incident_date : Option JVal

/-- The validated-and-stamped response (`GeminiResponse` in
`src/types/index.ts` after `validateGeminiResponse` returns): the nine
validated JSON fields plus the two stamped string fields. -/
structure GeminiResponse : Type where
  title : JVal
  clean_title : JVal
  summary_en : JVal
  summary_hi : JVal
  category : JVal
  location_text : JVal
  priority_score : JVal
  keywords : JVal
  incident_date : JVal
  source_link : String
  raw_text : String

/-- The `for (const field of required)` loop: every required field must be
present and neither `null` nor `undefined`. -/
def fieldPresent (o : Option JVal) : Bool :=
  match o with
  | none => false
  | some .jnull => false
  | some _ => true

def requiredFieldsPresent (r : RawGeminiResponse) : Bool :=
  fieldPresent r.title && fieldPresent r.clean_title &&
  fieldPresent r.summary_en && fieldPresent r.summary_hi &&
  fieldPresent r.category && fieldPresent r.location_text &&
  fieldPresent r.priority_score && fieldPresent r.keywords &&
  fieldPresent r.incident_date

/-- `isCategoryValid(response.category)`: `Array.prototype.includes` compares
with strict equality, so a non-string JSON value is never a valid category. -/
def categoryCheck (r : RawGeminiResponse) : Bool :=
  match r.category with
  | some (.jstr s) => isCategoryValid s
  | _ => false

/-- The priority test: `typeof` must report a number, `1 <= p && p <= 5`,
and `Number.isInteger(p)` (the source tests the negation of each and
throws). -/
def priorityCheck (r : RawGeminiResponse) : Bool :=
  match r.priority_score with
  | some (.jnum q) => decide (1 ≤ q) && decide (q ≤ 5) && decide (q.den = 1)
  | _ => false

/-- `Array.isArray(response.keywords)`. -/
def keywordsCheck (r : RawGeminiResponse) : Bool :=
  match r.keywords with
  | some (.jarr _) => true
  | _ => false

def jvalGet (o : Option JVal) : JVal := o.getD .jnull

/-- `validateGeminiResponse` (`gemini.ts` 103–157).  The checks appear in
source order; the word-count checks on `summary_en` / `summary_hi`
(`countWords`, lines 142–152) only issue `console.warn` and are therefore
absent from the result.  On success the source mutates the response:
`response.source_link = sourceLink;
 response.raw_text = response.title + | a single space | + response.summary_en;`
which is the stamping in the returned record. -/
def validateGeminiResponse (r : RawGeminiResponse) (sourceLink : String) :
    Option GeminiResponse :=
  if requiredFieldsPresent r = false then none
  else if categoryCheck r = false then none
  else if priorityCheck r = false then none
  else if keywordsCheck r = false then none
  else
    some
      { title := jvalGet r.title
        clean_title := jvalGet r.clean_title
        summary_en := jvalGet r.summary_en
        summary_hi := jvalGet r.summary_hi
        category := jvalGet r.category
        location_text := jvalGet r.location_text
        priority_score := jvalGet r.priority_score
        keywords := jvalGet r.keywords
        incident_date := jvalGet r.incident_date
        source_link := sourceLink
        raw_text :=
          jsToString (jvalGet r.title) ++ " " ++ jsToString (jvalGet r.summary_en) }

/-! ## `processArticleWithGemini` (`src/lib/ai/gemini.ts`, lines 47–98)

The external Gemini call is an environment mapping the attempt index to the
outcome of that attempt: `.fail` covers a transport error, a non-JSON response and
any other throw before validation; `.ok raw` is a successfully parsed JSON
object (which validation may still reject, failing the attempt).  The
returned value is paired with the number of attempts consumed; exhausting
`maxRetries + 1` attempts throws (`Except.error`). -/

inductive GemOutcome : Type where
  | fail : GemOutcome
  | ok (raw : RawGeminiResponse) : GemOutcome

/-- The `for (attempt = 0; attempt <= maxRetries; attempt++)` loop, structured
on the number of remaining attempts; `attemptIdx` is the current value of
`attempt`. -/
def geminiGo (env : ℕ → GemOutcome) (sourceLink : String) :
    ℕ → ℕ → Except String (GeminiResponse × ℕ)
  | _, 0 => .error "Gemini API failed after all attempts"
  | attemptIdx, remaining + 1 =>
    match env attemptIdx with
    | .fail => geminiGo env sourceLink (attemptIdx + 1) remaining
    | .ok raw =>
      match validateGeminiResponse raw sourceLink with
      | some g => .ok (g, attemptIdx + 1)
      | none => geminiGo env sourceLink (attemptIdx + 1) remaining

/-- `processArticleWithGemini(title, content, sourceLink, maxRetries = 3)`.
`title` and `content` only feed the prompt text of the external call and do
not influence the control flow modelled here. -/
def processArticleWithGemini (env : ℕ → GemOutcome)
    (title content sourceLink : String) (maxRetries : ℕ) :
    Except String (GeminiResponse × ℕ) :=
  let _ := title
  let _ := content
  geminiGo env sourceLink 0 (maxRetries + 1)

/-! ## Coordinates and `validateCoordinates`
(`src/lib/utils/validators.ts`, lines 124–147)

A JavaScript number that may be `NaN` (e.g. the result of `parseFloat` on a
non-numeric string) is modelled as `Option ℚ`, with `none` for `NaN`.  The
source checks, in order: both fields are numbers, the latitude range, the
longitude range, and `isFinite` on both.  `NaN` passes the `typeof` test and
both range tests (every comparison with `NaN` is false) and is rejected by
the final `isFinite` test; in this model that is the `none` case of either
coordinate. -/

def jsNumLt (a : Option ℚ) (c : ℚ) : Bool :=
  match a with
  | some q => decide (q < c)
  | none => false

def jsNumGtQ (a : Option ℚ) (c : ℚ) : Bool :=
  match a with
  | some q => decide (c < q)
  | none => false

/-- `validateCoordinates({lat, lng})` from `validators.ts`.  The `typeof`
test is encoded by the final `isSome` tests (a `none` passes every comparison
below, exactly as `NaN` does in the source, and fails `isFinite`). -/
def validateCoordinates (lat lng : Option ℚ) : Bool :=
  if jsNumLt lat (-90) || jsNumGtQ lat 90 then false
  else if jsNumLt lng (-180) || jsNumGtQ lng 180 then false
  else lat.isSome && lng.isSome

/-! ## `geocodeLocation` (`src/lib/geocoding/nominatim.ts`, lines 13–102)

The Nominatim call is an environment from attempt index to outcome.  `.fail`
is a transport error or a non-2xx status (the `throw` path, which retries);
`.ok data` is a parsed JSON array of hits whose `lat`/`lon` strings have
already been through `parseFloat` (`none` = `NaN`).  An `.ok` outcome never
retries: an empty array or invalid coordinates fall back immediately, exactly
as in the source.  The rate limiter (`enforceRateLimit`) only delays; it is
not modelled.  The function returns the result paired with the number of
fetch attempts made. -/

structure NominatimHit : Type where
  lat : Option ℚ
  lon : Option ℚ
  display_name : String

inductive GeoOutcome : Type where
  | fail : GeoOutcome
  | ok (data : List NominatimHit) : GeoOutcome

/-- `ALMORA_COORDINATES` from `src/types/index.ts`. -/
def ALMORA_LAT : ℚ := 29.5971

def ALMORA_LNG : ℚ := 79.659

structure GeocodingResult : Type where
  lat : ℚ
  lng : ℚ
  display_name : String
  success : Bool

/-- The fallback used when the result list is empty or its coordinates are
invalid (lines 75–81). -/
def geoFallbackNoResult : GeocodingResult :=
  { lat := ALMORA_LAT, lng := ALMORA_LNG,
    display_name := "Almora, Uttarakhand, India", success := false }

/-- The fallback used when all retries are exhausted (lines 95–101). -/
def geoFallbackExhausted : GeocodingResult :=
  { lat := ALMORA_LAT, lng := ALMORA_LNG,
    display_name := "Almora, Uttarakhand, India (fallback)", success := false }

/-- Lines 56–81: handling of a 2xx response body. -/
def geoHandleData : List NominatimHit → GeocodingResult
  | [] => geoFallbackNoResult
  | hit :: _ =>
    if validateCoordinates hit.lat hit.lon then
      match hit.lat, hit.lon with
      | some la, some lo =>
        { lat := la, lng := lo, display_name := hit.display_name,
          success := true }
      | _, _ => geoFallbackNoResult
    else geoFallbackNoResult

/-- The `for (attempt = 0; attempt <= maxRetries; attempt++)` loop of
`geocodeLocation`, structured on the number of remaining attempts. -/
def geocodeGo (env : ℕ → GeoOutcome) : ℕ → ℕ → GeocodingResult × ℕ
  | attemptIdx, 0 => (geoFallbackExhausted, attemptIdx)
  | attemptIdx, remaining + 1 =>
    match env attemptIdx with
    | .fail => geocodeGo env (attemptIdx + 1) remaining
    | .ok data => (geoHandleData data, attemptIdx + 1)

/-- `geocodeLocation(locationText, maxRetries = 3)`.  Empty or
whitespace-only input short-circuits to the fallback without any fetch
(lines 17–23); the search-query construction (appending
", Almora, Uttarakhand, India") only changes the outbound query string, which
the environment already abstracts. -/
def geocodeLocation (env : ℕ → GeoOutcome) (locationText : String)
    (maxRetries : ℕ) : GeocodingResult × ℕ :=
  if jsTrim locationText = "" then (geoFallbackNoResult, 0)
  else geocodeGo env 0 (maxRetries + 1)

/-! ## The event store writer (`src/app/api/process/route.ts`, lines 59–117)

The MongoDB `events` collection is a list of stored documents; `_id` is a
natural number, with `freshId` standing for the freshness of a MongoDB
ObjectId (the id of a newly inserted document differs from every id already
in the collection). -/

/-- The content of `eventDocument` (route lines 59–76), including the
`createdAt`/`updatedAt` fields it is built with. -/
structure EventDoc : Type where
  title : JVal
  clean_title : JVal
  summary_en : JVal
  summary_hi : JVal
  category : JVal
  coordsLat : ℚ
  coordsLng : ℚ
  images : List String
  videos : List String
  location_text : JVal
  priority_score : JVal
  keywords : JVal
  incident_date : JVal
  source_link : String
  raw_text : String
  createdAt : ℕ
  updatedAt : ℕ

structure StoredEvent extends EventDoc : Type where
  id : ℕ

/-- `collection.findOne({source_link})`: first document with the given
origin link. -/
def findOneByLink (db : List StoredEvent) (s : String) : Option StoredEvent :=
  db.find? (fun e => e.source_link = s)

/-- A fresh `_id`: strictly larger than every id in the collection. -/
def freshId (db : List StoredEvent) : ℕ :=
  (db.map (fun e => e.id)).foldr max 0 + 1

structure StoreResult : Type where
  db : List StoredEvent
  finalEvent : Option StoredEvent
  isNew : Bool

/-- Route lines 83–117: look up by `source_link`; if present,
`updateOne({_id}, {$set: {...eventDocument, createdAt: existing.createdAt,
updatedAt: new Date()}})`; if absent, `insertOne(eventDocument)`.  Then the
final `findOne({source_link})` re-read (lines 111–113); the route throws if
that read returns nothing, hence the `Option` in the result.  The spread
`...eventDocument` replaces every content field; `createdAt` is then
overridden with the creation time of the existing document. -/
def storeEvent (db : List StoredEvent) (doc : EventDoc) : StoreResult :=
  match findOneByLink db doc.source_link with
  | some existing =>
    let updated : StoredEvent :=
      { toEventDoc := { doc with createdAt := existing.createdAt },
        id := existing.id }
    let db1 := db.map (fun e => if e.id = existing.id then updated else e)
    { db := db1, finalEvent := findOneByLink db1 doc.source_link,
      isNew := false }
  | none =>
    let inserted : StoredEvent := { toEventDoc := doc, id := freshId db }
    let db1 := db ++ [inserted]
    { db := db1, finalEvent := findOneByLink db1 doc.source_link,
      isNew := true }

/-! ## The process route (`src/app/api/process/route.ts`) -/

structure ProcessArticleRequest : Type where
  title : String
  content : String
  images : List String
  publishTime : String
  sourceLink : String

/-- `eventDocument` (route lines 59–76) built from the validated Gemini
response, the request body, the (already fallback-corrected) coordinates and
the current time.  `incident_date: new Date(g.incident_date ||
body.publishTime)` is kept as the chosen JSON value (date parsing is not
modelled). -/
def mkEventDocument (g : GeminiResponse) (req : ProcessArticleRequest)
    (coords : ℚ × ℚ) (now : ℕ) : EventDoc :=
  { title := g.title
    clean_title := g.clean_title
    summary_en := g.summary_en
    summary_hi := g.summary_hi
    category := g.category
    coordsLat := coords.1
    coordsLng := coords.2
    images := req.images
    videos := []
    location_text := g.location_text
    priority_score := g.priority_score
    keywords := g.keywords
    incident_date :=
      if jsFalsy g.incident_date then .jstr req.publishTime
      else g.incident_date
    source_link := req.sourceLink
    raw_text := g.raw_text
    createdAt := now
    updatedAt := now }

/-- `geminiResponse.priority_score >= 4` (route line 120): a JavaScript `>=`
on the JSON value; validation guarantees it is a number, and a non-number
compares false here. -/
def jvalGe (v : JVal) (c : ℚ) : Bool :=
  match v with
  | .jnum q => decide (c ≤ q)
  | _ => false

/-- `shouldTriggerNotification` from `src/lib/notifications/trigger.ts`
(lines 35–37): `priorityScore >= 4`. -/
def shouldTriggerNotification (priorityScore : ℚ) : Bool :=
  decide (4 ≤ priorityScore)

/-- Route line 120: the condition guarding the fire-and-forget call to
`/api/notify` — `geminiResponse.priority_score >= 4 && isNew`. -/
def routeNotifyGate (g : GeminiResponse) (isNew : Bool) : Bool :=
  jvalGe g.priority_score 4 && isNew

structure RouteResponse : Type where
  event : StoredEvent
  isNew : Bool
  /-- Whether the route issued the fire-and-forget `fetch` to `/api/notify`
  (route lines 120–138). -/
  notifyTriggered : Bool

/-- `POST /api/process` (the whole route handler), over a Gemini environment,
a geocoding environment, the request body, the current `events` collection
and the current time (the several `new Date()` calls within one request are
identified).  Failure (`.error`) covers the 400 response for missing fields,
the 500 response when Gemini exhausts its retries, and the
`Failed to retrieve saved event` throw. -/
def processRoute (genv : ℕ → GemOutcome) (eenv : ℕ → GeoOutcome)
    (req : ProcessArticleRequest) (db : List StoredEvent) (now : ℕ) :
    Except String (List StoredEvent × RouteResponse) :=
  if req.title = "" || req.content = "" || req.sourceLink = "" then
    .error "Bad Request: missing required fields"
  else
    match processArticleWithGemini genv req.title req.content req.sourceLink 3 with
    | .error e => .error e
    | .ok (g, _) =>
      let geo := (geocodeLocation eenv (jsToString g.location_text) 3).1
      let coords :=
        if validateCoordinates (some geo.lat) (some geo.lng) then
          (geo.lat, geo.lng)
        else (ALMORA_LAT, ALMORA_LNG)
      let doc := mkEventDocument g req coords now
      let res := storeEvent db doc
      match res.finalEvent with
      | none => .error "Failed to retrieve saved event"
      | some fin =>
        .ok (res.db,
          { event := fin, isNew := res.isNew,
            notifyTriggered := routeNotifyGate g res.isNew })

/-! ## JavaScript numbers with `NaN`, and `calculateDistance`
(`src/lib/utils/geo.ts`, lines 7–29)

`calculateDistance(coord1, coord2)` expects two `{lat, lng}` objects, but its
call site in `getNotificationRecipients`
(`src/lib/notifications/trigger.ts`, lines 80–85) passes four plain numbers:
`calculateDistance(pref.location_coords.lat, pref.location_coords.lng,
event.coords.lat, event.coords.lng)`.  In JavaScript the extra arguments are
dropped, `coord1` and `coord2` are bound to the two latitude/longitude
numbers, and every property access `coord1.lat` etc. yields `undefined`, so
the computed distance is `NaN`.  To express this we model JS numbers with
`NaN` and `undefined` and keep `Math.sin`/`cos`/`atan2`/`sqrt` as components
of a `JsMath` structure whose fields include only their IEEE behaviour on
`NaN` (their values on ordinary numbers never matter in any theorem below,
because every argument that reaches them on this code path is `NaN`). -/

inductive JsNum : Type where
  | num (q : ℚ) : JsNum
  | nan : JsNum
  | jsUndefined : JsNum
deriving DecidableEq

/-- JS binary arithmetic on numbers: any `NaN`/`undefined` operand gives
`NaN`. -/
def JsNum.sub : JsNum → JsNum → JsNum
  | .num a, .num b => .num (a - b)
  | _, _ => .nan

def JsNum.mul : JsNum → JsNum → JsNum
  | .num a, .num b => .num (a * b)
  | _, _ => .nan

def JsNum.add : JsNum → JsNum → JsNum
  | .num a, .num b => .num (a + b)
  | _, _ => .nan

def JsNum.div : JsNum → JsNum → JsNum
  | .num a, .num b => if b = 0 then .nan else .num (a / b)
  | _, _ => .nan

/-- JS `>`: every comparison involving `NaN`/`undefined` is false. -/
def JsNum.gt : JsNum → JsNum → Bool
  | .num a, .num b => decide (b < a)
  | _, _ => false

/-- The `Math` functions used by `calculateDistance`.  `pi` is `Math.PI`; the
four propositional fields record the IEEE `NaN` behaviour
(`Math.sin(NaN) = NaN`, …), which is all the theorems below use. -/
structure JsMath : Type where
  sin : JsNum → JsNum
  cos : JsNum → JsNum
  sqrt : JsNum → JsNum
  atan2 : JsNum → JsNum → JsNum
  pi : ℚ
  sin_nan : sin .nan = .nan
  cos_nan : cos .nan = .nan
  sqrt_nan : sqrt .nan = .nan
  atan2_nan : atan2 .nan .nan = .nan

/-- A concrete inhabitant of `JsMath`, usable to run the model on concrete
inputs.  On ordinary numbers the trigonometric values are irrational and are
stood in for by `0`; no theorem depends on them (every argument reaching
these functions in the theorems below is `NaN`). -/
def jsMathEval : JsMath :=
  { sin := fun v => match v with | .num _ => .num 0 | _ => .nan
    cos := fun v => match v with | .num _ => .num 0 | _ => .nan
    sqrt := fun v => match v with | .num _ => .num 0 | _ => .nan
    atan2 := fun a b => match a, b with | .num _, .num _ => .num 0 | _, _ => .nan
    pi := 3.14159265358979
    sin_nan := rfl
    cos_nan := rfl
    sqrt_nan := rfl
    atan2_nan := rfl }

/-- An argument passed to `calculateDistance`: either a proper `{lat, lng}`
object (the declared signature) or a plain number (what the trigger call
site actually passes). -/
inductive JsCoordArg : Type where
  | coordObj (lat lng : ℚ) : JsCoordArg
  | jsnum (q : ℚ) : JsCoordArg

/-- Property access `arg.lat`: `undefined` on a plain number. -/
def JsCoordArg.latF : JsCoordArg → JsNum
  | .coordObj la _ => .num la
  | .jsnum _ => .jsUndefined

def JsCoordArg.lngF : JsCoordArg → JsNum
  | .coordObj _ lo => .num lo
  | .jsnum _ => .jsUndefined

/-- `toRadians` from `geo.ts` lines 27–29: multiply the degrees by
`Math.PI / 180`. -/
def toRadians (M : JsMath) (degrees : JsNum) : JsNum :=
  degrees.mul (.num (M.pi / 180))

/-- `calculateDistance(coord1, coord2)` (`geo.ts` lines 7–22), under JS
semantics for the property accesses on its two positional arguments. -/
def calculateDistance (M : JsMath) (coord1 coord2 : JsCoordArg) : JsNum :=
  let R : JsNum := .num 6371
  let lat1 := toRadians M coord1.latF
  let lat2 := toRadians M coord2.latF
  let deltaLat := toRadians M (coord2.latF.sub coord1.latF)
  let deltaLng := toRadians M (coord2.lngF.sub coord1.lngF)
  let a :=
    ((M.sin (deltaLat.div (.num 2))).mul (M.sin (deltaLat.div (.num 2)))).add
      ((((M.cos lat1).mul (M.cos lat2)).mul
          (M.sin (deltaLng.div (.num 2)))).mul
        (M.sin (deltaLng.div (.num 2))))
  let c := (JsNum.num 2).mul (M.atan2 (M.sqrt a) (M.sqrt ((JsNum.num 1).sub a)))
  R.mul c

/-! ## `getNotificationRecipients`
(`src/lib/notifications/trigger.ts`, lines 44–100) -/

/-- A row of the Supabase `preferences` table as selected by the trigger
query. -/
structure UserPreferences : Type where
  user_id : String
  categories : List String
  location_coords : Option (ℚ × ℚ)
  notifications_enabled : Bool
  fcm_token : Option String
deriving DecidableEq

structure EventNotificationData : Type where
  eventId : String
  title : String
  category : String
  location : String
  coordsLat : ℚ
  coordsLng : ℚ
  priorityScore : ℚ
deriving DecidableEq

/-- `GEOFENCE_RADIUS_KM` (`trigger.ts` line 28). -/
def GEOFENCE_RADIUS_KM : ℚ := 50

/-- The per-row predicate of `preferences.filter(...)` (`trigger.ts` lines
65–93), with its early returns.  The geofence branch calls
`calculateDistance` with the four plain numbers of the source call site: the
first two bind to `coord1`/`coord2`, the rest are dropped. -/
def recipientFilter (M : JsMath) (event : EventNotificationData)
    (pref : UserPreferences) : Bool :=
  if pref.fcm_token.isNone then false
  else if pref.categories.length > 0 &&
      !(pref.categories.contains event.category) then false
  else
    match pref.location_coords with
    | some (la, lo) =>
      let distance :=
        calculateDistance M (.jsnum la) (.jsnum lo)
      if distance.gt (.num GEOFENCE_RADIUS_KM) then false else true
    | none => true

/-- `getNotificationRecipients(event)` over the result set of the Supabase
query (which selects `notifications_enabled = true` and `fcm_token` not
null), then the in-process filter. -/
def getNotificationRecipients (M : JsMath) (event : EventNotificationData)
    (rows : List UserPreferences) : List UserPreferences :=
  let preferences := rows.filter
    (fun p => p.notifications_enabled && p.fcm_token.isSome)
  preferences.filter (recipientFilter M event)

/-! ## Concurrency of the write path
(`src/app/api/process/route.ts` lines 83–108, and the unique index of
`src/lib/db/setup-indexes.ts` lines 35–40)

The write path of one request is two database operations: the
`findOne({source_link})` read, then the conditional `insertOne`/`updateOne`
write.  Two concurrent requests are modelled as an interleaving of these
steps; a schedule is a list of booleans (`true` = run 1 takes the next step).
The `enforceUnique` flag models the unique index `idx_source_link` created by
`setupMongoIndexes`: with it, an insert whose `source_link` already exists
fails (duplicate-key error) and writes nothing.  Content fields are
abstracted to a single `payload` — only the keying by `source_link` matters
for atomicity. -/

structure WriteReq : Type where
  slink : String
  payload : ℕ
  time : ℕ
deriving DecidableEq

structure ConcRec : Type where
  id : ℕ
  slink : String
  payload : ℕ
  createdAt : ℕ
  updatedAt : ℕ
deriving DecidableEq

def concFind (db : List ConcRec) (s : String) : Option ConcRec :=
  db.find? (fun e => e.slink = s)

def concFreshId (db : List ConcRec) : ℕ :=
  (db.map (fun e => e.id)).foldr max 0 + 1

/-- Progress of one run: not yet read; read with the recorded snapshot; done
(either written or failed with a duplicate-key error). -/
inductive RunState : Type where
  | start : RunState
  | found (existing : Option ConcRec) : RunState
  | done : RunState
deriving DecidableEq

/-- One step of a run: the `findOne` read, or the conditional write decided
by the previously read snapshot. -/
def stepRun (enforceUnique : Bool) (req : WriteReq)
    (db : List ConcRec) (rs : RunState) : List ConcRec × RunState :=
  match rs with
  | .start => (db, .found (concFind db req.slink))
  | .found (some existing) =>
    (db.map (fun e =>
      if e.id = existing.id then
        { e with payload := req.payload, updatedAt := req.time,
                 slink := req.slink }
      else e), .done)
  | .found none =>
    if enforceUnique && (concFind db req.slink).isSome then
      (db, .done)
    else
      (db ++ [{ id := concFreshId db, slink := req.slink,
                payload := req.payload, createdAt := req.time,
                updatedAt := req.time }], .done)
  | .done => (db, .done)

/-- Run the two requests under a schedule (`true` = run 1 moves). -/
def execSched (enforceUnique : Bool) (r1 r2 : WriteReq) :
    List Bool → List ConcRec → RunState → RunState → List ConcRec
  | [], db, _, _ => db
  | b :: rest, db, s1, s2 =>
    if b then
      let (db1, s1n) := stepRun enforceUnique r1 db s1
      execSched enforceUnique r1 r2 rest db1 s1n s2
    else
      let (db1, s2n) := stepRun enforceUnique r2 db s2
      execSched enforceUnique r1 r2 rest db1 s1 s2n

/-- Number of stored records carrying the given origin link. -/
def countLink (db : List ConcRec) (s : String) : ℕ :=
  (db.filter (fun e => e.slink = s)).length

/-- The six interleavings of the two two-step runs. -/
def interleavings : List (List Bool) :=
  [[true, true, false, false], [true, false, true, false],
   [true, false, false, true], [false, true, true, false],
   [false, true, false, true], [false, false, true, true]]

/-! ## Source adapters: `validateArticle` and the Dainik Jagran fetch loop
(`src/lib/scrapers/base-scraper.ts` lines 142–171,
`src/lib/scrapers/dainik-jagran-scraper.ts` lines 51–60) -/

/-- `ScrapedArticle` from `src/types/index.ts`. -/
structure ScrapedArticle : Type where
  title : String
  content : String
  images : List String
  publishTime : String
  sourceLink : String
deriving DecidableEq

/-- A necessary condition for `new URL(s)` (with no base) to succeed: the
input must contain the `:` ending a URL scheme.  A string without any colon —
such as `"not a url"` — always makes `new URL` throw, i.e. is unparsable as
an absolute URL.  (`validateArticle` never calls `new URL`; this predicate
only serves to state claims about unparsable links.) -/
def urlHasSchemeColon (s : String) : Bool :=
  s.data.contains ':'

/-- `BaseScraper.validateArticle` (`base-scraper.ts` lines 142–171).  The
required-field loop tests JS truthiness in order (`title`, `content`,
`images`, `publishTime`, `sourceLink`); for the string fields falsy means
empty, and a (typed) array is never falsy, so the `images` iteration cannot
fail.  Then the `content.trim()` emptiness check; the final
`Array.isArray(images)` check always passes on a typed array.  Returns the
verdict together with the diagnostics pushed by `handleError`. -/
def validateArticle (a : ScrapedArticle) : Bool × List String :=
  if a.title = "" then (false, ["Missing required field: title"])
  else if a.content = "" then (false, ["Missing required field: content"])
  else if a.publishTime = "" then (false, ["Missing required field: publishTime"])
  else if a.sourceLink = "" then (false, ["Missing required field: sourceLink"])
  else if jsTrim a.content = "" then (false, ["Article content is empty"])
  else (true, [])

/-- Outcome of `scrapeArticle(articleUrl)` for one linked page: a candidate
article, or a failure (`scrapeArticle` returned `null` after recording its
own diagnostic, or threw and the surrounding `catch` recorded one). -/
inductive PageOutcome : Type where
  | ok (a : ScrapedArticle) : PageOutcome
  | failed (msg : String) : PageOutcome

/-- The per-article loop of `DainikJagranScraper.fetchContent`
(`dainik-jagran-scraper.ts` lines 51–60): each page outcome is handled
independently; a candidate is kept only when `validateArticle` passes;
failures and rejections record diagnostics and the loop continues. -/
def dainikFetchLoop : List PageOutcome → List ScrapedArticle × List String
  | [] => ([], [])
  | .ok a :: rest =>
    let (arts, errs) := dainikFetchLoop rest
    let (okA, errsA) := validateArticle a
    if okA then (a :: arts, errs) else (arts, errsA ++ errs)
  | .failed msg :: rest =>
    let (arts, errs) := dainikFetchLoop rest
    (arts, msg :: errs)

/-! ## The fetch orchestrator (`src/app/api/scrape/route.ts`)

The `scrape()` of each scraper (`base-scraper.ts` lines 56–84) catches every
failure of its `fetchContent` and returns a `ScraperResult` carrying only the
source name, the article count, and the diagnostics — the articles themselves
are not part of `ScraperResult`.  The orchestrator input is the list of
per-scraper fetch outcomes (an `Except` covering exceptions, timeouts and
malformed output). -/

structure ScraperResult : Type where
  source : String
  articlesScraped : ℕ
  errors : List String
deriving DecidableEq

/-- `BaseScraper.scrape()`: on success the article count, on failure zero
articles plus the recorded diagnostic.  The articles are returned to the
caller only through the count. -/
def scraperScrape (name : String)
    (fetchOutcome : Except String (List ScrapedArticle)) : ScraperResult :=
  match fetchOutcome with
  | .ok arts => { source := name, articlesScraped := arts.length, errors := [] }
  | .error msg =>
    { source := name, articlesScraped := 0,
      errors := ["Scraping failed: " ++ msg] }

structure ScrapeSummary : Type where
  sources : List ScraperResult
  totalArticlesScraped : ℕ
  articlesProcessed : ℕ
  articlesFailed : ℕ
  errors : List String
  /-- The `allArticles` list whose members the route forwards to
  `/api/process` (route lines 44, 72–93). -/
  forwarded : List ScrapedArticle
deriving DecidableEq

/-- `POST /api/scrape` (route lines 27–116) after authentication: run every
scraper (`Promise.allSettled` — `scrape()` itself never rejects), then the
`results.forEach` collection loop, then the processing loop over
`allArticles`.  Faithful to the source, the collection loop pushes only
`scraperResults` and `errors`; `allArticles` is declared (line 44) and never
extended, so the processing loop (lines 72–93) runs over an empty list.
`processOk` models the per-article success of the `/api/process` call. -/
def scrapeRoute (inputs : List (String × Except String (List ScrapedArticle)))
    (processOk : ScrapedArticle → Bool) : ScrapeSummary :=
  let results := inputs.map (fun i => scraperScrape i.1 i.2)
  let allArticles : List ScrapedArticle := []
  let scraperResults := results
  let errors := results.foldr (fun r acc => r.errors ++ acc) []
  let processedCount := (allArticles.filter processOk).length
  let failedCount := (allArticles.filter (fun a => !processOk a)).length
  { sources := scraperResults
    totalArticlesScraped :=
      (scraperResults.map (fun r => r.articlesScraped)).sum
    articlesProcessed := processedCount
    articlesFailed := failedCount
    errors := errors
    forwarded := allArticles }

/-- Modelled from the spec: "Output: concatenation of all
successfully-returned candidate articles" (§4.1) — the article list the
orchestrator is specified to collect and forward, for comparison with
`scrapeRoute`. -/
def specCollectedArticles
    (inputs : List (String × Except String (List ScrapedArticle))) :
    List ScrapedArticle :=
  inputs.foldr
    (fun i acc => match i.2 with | .ok arts => arts ++ acc | .error _ => acc) []

/-- Number of stored events carrying a given origin link. -/
def countBySourceLink (db : List StoredEvent) (s : String) : ℕ :=
  (db.filter (fun e => e.source_link = s)).length

/-! ## Concrete fixtures for witnesses and counterexamples -/

def linkW : String := "https://x/1"

def rawGeminiW : RawGeminiResponse :=
  { title := some (.jstr "Landslide on Mall Road")
    clean_title := some (.jstr "Landslide on Mall Road")
    summary_en := some (.jstr "A landslide blocked Mall Road")
    summary_hi := some (.jstr "H")
    category := some (.jstr "accident")
    location_text := some (.jstr "Mall Road")
    priority_score := some (.jnum 5)
    keywords := some (.jarr [.jstr "landslide"])
    incident_date := some (.jstr "2024-01-01T00:00:00Z") }

def geminiW : GeminiResponse :=
  { title := .jstr "Landslide on Mall Road"
    clean_title := .jstr "Landslide on Mall Road"
    summary_en := .jstr "A landslide blocked Mall Road"
    summary_hi := .jstr "H"
    category := .jstr "accident"
    location_text := .jstr "Mall Road"
    priority_score := .jnum 5
    keywords := .jarr [.jstr "landslide"]
    incident_date := .jstr "2024-01-01T00:00:00Z"
    source_link := linkW
    raw_text := "Landslide on Mall Road A landslide blocked Mall Road" }

def reqW : ProcessArticleRequest :=
  { title := "Landslide on Mall Road"
    content := "ORIGINAL RAW BODY"
    images := []
    publishTime := "2024-01-01T00:00:00Z"
    sourceLink := linkW }

def genvOkW : ℕ → GemOutcome := fun _ => .ok rawGeminiW

def genvTwoFailW : ℕ → GemOutcome :=
  fun i => if i < 2 then .fail else .ok rawGeminiW

def genvFailAllW : ℕ → GemOutcome := fun _ => .fail

def hitW : NominatimHit :=
  { lat := some 29.6, lon := some 79.66, display_name := "Mall Road, Almora" }

def eenvOkW : ℕ → GeoOutcome := fun _ => .ok [hitW]

def eenvTwoFailW : ℕ → GeoOutcome :=
  fun i => if i < 2 then .fail else .ok [hitW]

def eenvFailAllW : ℕ → GeoOutcome := fun _ => .fail

/-- The process-route run used by the C10 counterexample, with the raw
article body "ORIGINAL RAW BODY". -/
def routeOutW : Except String (List StoredEvent × RouteResponse) :=
  processRoute genvOkW eenvOkW reqW [] 100

def routeRawTextW : Except String String :=
  routeOutW.map (fun x => x.2.event.raw_text)

def d1W : EventDoc :=
  { title := .jstr "Old title"
    clean_title := .jstr "Old title"
    summary_en := .jstr "old summary"
    summary_hi := .jstr "old"
    category := .jstr "accident"
    coordsLat := 29.6
    coordsLng := 79.66
    images := []
    videos := []
    location_text := .jstr "Mall Road"
    priority_score := .jnum 5
    keywords := .jarr []
    incident_date := .jstr "2024-01-01T00:00:00Z"
    source_link := linkW
    raw_text := "old raw"
    createdAt := 100
    updatedAt := 100 }

def d2W : EventDoc :=
  { title := .jstr "New title"
    clean_title := .jstr "New title"
    summary_en := .jstr "new summary"
    summary_hi := .jstr "new"
    category := .jstr "weather"
    coordsLat := 29.7
    coordsLng := 79.6
    images := ["https://img/2"]
    videos := []
    location_text := .jstr "Almora"
    priority_score := .jnum 3
    keywords := .jarr [.jstr "rain"]
    incident_date := .jstr "2024-01-02T00:00:00Z"
    source_link := linkW
    raw_text := "new raw"
    createdAt := 200
    updatedAt := 200 }

def almoraEventW : EventNotificationData :=
  { eventId := "e1"
    title := "Landslide on Mall Road"
    category := "accident"
    location := "Mall Road"
    coordsLat := ALMORA_LAT
    coordsLng := ALMORA_LNG
    priorityScore := 5 }

/-- A subscriber whose home coordinate lies on the equator at the Almora
longitude — about 3,290 km from the event along a great circle, far outside
the 50 km geofence. -/
def farUserW : UserPreferences :=
  { user_id := "u-far"
    categories := []
    location_coords := some (0, ALMORA_LNG)
    notifications_enabled := true
    fcm_token := some "tok-far" }

def r1W : WriteReq := { slink := linkW, payload := 1, time := 10 }

def r2W : WriteReq := { slink := linkW, payload := 2, time := 20 }

def artW : ScrapedArticle :=
  { title := "Landslide on Mall Road"
    content := "A landslide blocked Mall Road near the market."
    images := []
    publishTime := "2024-01-01T00:00:00Z"
    sourceLink := linkW }

def badLinkArtW : ScrapedArticle :=
  { title := "Landslide on Mall Road"
    content := "A landslide blocked Mall Road near the market."
    images := []
    publishTime := "2024-01-01T00:00:00Z"
    sourceLink := "not a url" }

def emptyTitleArtW : ScrapedArticle :=
  { title := ""
    content := "A landslide blocked Mall Road near the market."
    images := []
    publishTime := "2024-01-01T00:00:00Z"
    sourceLink := linkW }

def processOkW : ScrapedArticle → Bool := fun _ => true

/-! # Theorems -/

/-! ## Helper lemmas -/

theorem isCategoryValid_iff (s : String) :
    isCategoryValid s = true ↔ s ∈ CATEGORIES := by
  simp [isCategoryValid, List.elem_iff]

theorem categoryCheck_iff (r : RawGeminiResponse) :
    categoryCheck r = true ↔
      ∃ s, r.category = some (.jstr s) ∧ s ∈ CATEGORIES := by
  unfold categoryCheck
  cases hc : r.category with
  | none => simp
  | some v =>
    cases v <;> simp [isCategoryValid_iff]

theorem priorityCheck_iff (r : RawGeminiResponse) :
    priorityCheck r = true ↔
      ∃ q : ℚ, r.priority_score = some (.jnum q) ∧
        1 ≤ q ∧ q ≤ 5 ∧ q.den = 1 := by
  unfold priorityCheck
  cases hc : r.priority_score with
  | none => simp
  | some v =>
    cases v <;> simp [and_assoc]

theorem keywordsCheck_iff (r : RawGeminiResponse) :
    keywordsCheck r = true ↔ ∃ xs, r.keywords = some (.jarr xs) := by
  unfold keywordsCheck
  cases hc : r.keywords with
  | none => simp
  | some v => cases v <;> simp

theorem validateGeminiResponse_isSome (r : RawGeminiResponse) (link : String) :
    (validateGeminiResponse r link).isSome = true ↔
      (requiredFieldsPresent r = true ∧ categoryCheck r = true ∧
       priorityCheck r = true ∧ keywordsCheck r = true) := by
  unfold validateGeminiResponse
  cases h1 : requiredFieldsPresent r <;>
    cases h2 : categoryCheck r <;>
      cases h3 : priorityCheck r <;>
        cases h4 : keywordsCheck r <;> simp

/-- C6: a parsed language-model response passes normalization validation if
and only if every required field is present and non-null, the category is
one of the 8 enumerated values, the priority score is an integer in [1, 5],
and keywords is an array; a violating response makes the attempt fail
(`validateGeminiResponse` returns `none`, the modelled throw), and the
summary word counts do not occur in the condition at all (in the source they
only feed `console.warn`). -/
theorem C6_validation_iff (r : RawGeminiResponse) (link : String) :
    (validateGeminiResponse r link).isSome = true ↔
      ((fieldPresent r.title = true ∧ fieldPresent r.clean_title = true ∧
        fieldPresent r.summary_en = true ∧ fieldPresent r.summary_hi = true ∧
        fieldPresent r.category = true ∧ fieldPresent r.location_text = true ∧
        fieldPresent r.priority_score = true ∧ fieldPresent r.keywords = true ∧
        fieldPresent r.incident_date = true) ∧
       (∃ s, r.category = some (.jstr s) ∧ s ∈ CATEGORIES) ∧
       (∃ q : ℚ, r.priority_score = some (.jnum q) ∧
          1 ≤ q ∧ q ≤ 5 ∧ q.den = 1) ∧
       (∃ xs, r.keywords = some (.jarr xs))) := by
  rw [validateGeminiResponse_isSome, categoryCheck_iff, priorityCheck_iff,
    keywordsCheck_iff]
  unfold requiredFieldsPresent
  simp [Bool.and_eq_true, and_assoc]

/-- C4: the notification dispatcher is invoked for a processed article iff
the store reported the event newly created and its priority score is at
least 4: the gate on route line 120 (`routeNotifyGate`, used by
`processRoute`) is exactly `isNew` conjoined with the 4-threshold, an event
with priority below 4 never fires it, and `shouldTriggerNotification`
returns true exactly when the priority score is at least 4. -/
theorem C4_priority_gate (g : GeminiResponse) (isNewB : Bool) (q : ℚ)
    (hq : g.priority_score = .jnum q) :
    (routeNotifyGate g isNewB = true ↔ (isNewB = true ∧ 4 ≤ q)) ∧
    routeNotifyGate g isNewB = (isNewB && shouldTriggerNotification q) ∧
    (shouldTriggerNotification q = true ↔ 4 ≤ q) ∧
    (q < 4 → routeNotifyGate g isNewB = false) := by
  refine ⟨?_, ?_, ?_, ?_⟩
  · simp [routeNotifyGate, jvalGe, hq, Bool.and_eq_true, and_comm]
  · simp [routeNotifyGate, jvalGe, shouldTriggerNotification, hq,
      Bool.and_comm]
  · simp [shouldTriggerNotification]
  · intro hlt
    simp [routeNotifyGate, jvalGe, hq, not_le.mpr hlt]

theorem C4_priority_gate_witness :
    (routeNotifyGate geminiW true = true ↔ (true = true ∧ (4 : ℚ) ≤ 5)) ∧
    routeNotifyGate geminiW true = (true && shouldTriggerNotification 5) ∧
    (shouldTriggerNotification 5 = true ↔ (4 : ℚ) ≤ 5) ∧
    ((5 : ℚ) < 4 → routeNotifyGate geminiW true = false) :=
  C4_priority_gate geminiW true 5 rfl

/-- C10 (amended): for every response passing normalization validation the
stamped `source_link` is the origin link of the candidate, while `raw_text`
is the model-returned title concatenated (with a single space) with the
model-returned English summary — not the original raw article text. -/
theorem C10_stamp (r : RawGeminiResponse) (link : String) (g : GeminiResponse)
    (h : validateGeminiResponse r link = some g) :
    g.source_link = link ∧
    g.raw_text =
      jsToString (jvalGet r.title) ++ " " ++ jsToString (jvalGet r.summary_en) := by
  unfold validateGeminiResponse at h
  split at h
  · exact Option.noConfusion h
  · split at h
    · exact Option.noConfusion h
    · split at h
      · exact Option.noConfusion h
      · split at h
        · exact Option.noConfusion h
        · injection h with h2
          subst h2
          exact ⟨rfl, rfl⟩

theorem C10_stamp_witness :
    geminiW.source_link = linkW ∧
    geminiW.raw_text = "Landslide on Mall Road A landslide blocked Mall Road" := by
  have h := C10_stamp rawGeminiW linkW geminiW rfl
  exact ⟨h.1, h.2.trans rfl⟩

/-- C10 counterexample: the claim as stated — that `raw_text` on the stored
event equals the original raw article text — fails on a concrete process-route
run: the request body is "ORIGINAL RAW BODY" yet the stored `raw_text` is the
model title concatenated with the English summary. -/
theorem C10_raw_text_counterexample :
    routeRawTextW = .ok "Landslide on Mall Road A landslide blocked Mall Road" ∧
    reqW.content = "ORIGINAL RAW BODY" ∧
    ("Landslide on Mall Road A landslide blocked Mall Road" : String) ≠
      "ORIGINAL RAW BODY" := by
  refine ⟨rfl, rfl, by decide⟩

/-- The distance computed at the trigger call site: `calculateDistance`
applied to plain numbers (the actual argument shape in `trigger.ts` lines
80–85) is `NaN`, for every model of the `Math` functions. -/
theorem calculateDistance_misapplied (M : JsMath) (a b : ℚ) :
    calculateDistance M (.jsnum a) (.jsnum b) = .nan := by
  simp [calculateDistance, toRadians, JsCoordArg.latF, JsCoordArg.lngF,
    JsNum.sub, JsNum.mul, JsNum.div, JsNum.add, M.sin_nan, M.cos_nan,
    M.sqrt_nan, M.atan2_nan]

/-- C3: refuted on the code — the geofence clause of
`getNotificationRecipients` is vacuous.  `calculateDistance` is called with
four plain numbers instead of two coordinate objects, so the distance is
`NaN` and `NaN > 50` is false; a subscriber with home coordinates about
3,290 km from the event (far outside 50 km) is selected, for every model of
the `Math` functions and in particular for the executable one. -/
theorem C3_geofence_vacuous :
    (∀ M : JsMath,
       getNotificationRecipients M almoraEventW [farUserW] = [farUserW]) ∧
    getNotificationRecipients jsMathEval almoraEventW [farUserW] = [farUserW] := by
  have h : ∀ M : JsMath,
      getNotificationRecipients M almoraEventW [farUserW] = [farUserW] := by
    intro M
    simp [getNotificationRecipients, recipientFilter, farUserW, almoraEventW,
      calculateDistance_misapplied, JsNum.gt, GEOFENCE_RADIUS_KM]
  exact ⟨h, h jsMathEval⟩

theorem validateCoordinates_isSome (a b : Option ℚ)
    (h : validateCoordinates a b = true) : a.isSome = true ∧ b.isSome = true := by
  unfold validateCoordinates at h
  split at h
  · exact Bool.noConfusion h
  · split at h
    · exact Bool.noConfusion h
    · simpa using h

theorem validateCoordinates_bounds (la lo : ℚ)
    (h : validateCoordinates (some la) (some lo) = true) :
    -90 ≤ la ∧ la ≤ 90 ∧ -180 ≤ lo ∧ lo ≤ 180 := by
  unfold validateCoordinates jsNumLt jsNumGtQ at h
  split at h
  · exact Bool.noConfusion h
  · split at h
    · exact Bool.noConfusion h
    · rename_i hlat hlng
      simp only [Bool.or_eq_true, decide_eq_true_eq, not_or] at hlat hlng
      exact ⟨by linarith [hlat.1, not_lt.mp hlat.1], by linarith [not_lt.mp hlat.2],
        by linarith [not_lt.mp hlng.1], by linarith [not_lt.mp hlng.2]⟩

theorem geoHandleData_props (data : List NominatimHit) :
    (-90 ≤ (geoHandleData data).lat ∧ (geoHandleData data).lat ≤ 90 ∧
     -180 ≤ (geoHandleData data).lng ∧ (geoHandleData data).lng ≤ 180) ∧
    ((geoHandleData data).success = false →
       (geoHandleData data).lat = ALMORA_LAT ∧
       (geoHandleData data).lng = ALMORA_LNG) := by
  cases data with
  | nil =>
    refine ⟨?_, fun _ => ⟨rfl, rfl⟩⟩
    norm_num [geoHandleData, geoFallbackNoResult, ALMORA_LAT, ALMORA_LNG]
  | cons hit rest =>
    by_cases hv : validateCoordinates hit.lat hit.lon = true
    · have hsome := validateCoordinates_isSome hit.lat hit.lon hv
      cases hla : hit.lat with
      | none => rw [hla] at hsome; exact absurd hsome.1 (by simp)
      | some la =>
        cases hlo : hit.lon with
        | none => rw [hlo] at hsome; exact absurd hsome.2 (by simp)
        | some lo =>
          rw [hla, hlo] at hv
          have hb := validateCoordinates_bounds la lo hv
          simp only [geoHandleData, hla, hlo, hv, if_true]
          exact ⟨⟨hb.1, hb.2.1, hb.2.2.1, hb.2.2.2⟩, fun hs => Bool.noConfusion hs⟩
    · simp only [geoHandleData]
      rw [if_neg hv]
      refine ⟨?_, fun _ => ⟨rfl, rfl⟩⟩
      norm_num [geoFallbackNoResult, ALMORA_LAT, ALMORA_LNG]

theorem geocodeGo_props (env : ℕ → GeoOutcome) :
    ∀ (rem a : ℕ),
      (-90 ≤ (geocodeGo env a rem).1.lat ∧ (geocodeGo env a rem).1.lat ≤ 90 ∧
       -180 ≤ (geocodeGo env a rem).1.lng ∧ (geocodeGo env a rem).1.lng ≤ 180) ∧
      ((geocodeGo env a rem).1.success = false →
         (geocodeGo env a rem).1.lat = ALMORA_LAT ∧
         (geocodeGo env a rem).1.lng = ALMORA_LNG) := by
  intro rem
  induction rem with
  | zero =>
    intro a
    refine ⟨?_, fun _ => ⟨rfl, rfl⟩⟩
    norm_num [geocodeGo, geoFallbackExhausted, ALMORA_LAT, ALMORA_LNG]
  | succ n ih =>
    intro a
    cases he : env a with
    | fail => simpa [geocodeGo, he] using ih (a + 1)
    | ok data => simpa [geocodeGo, he] using geoHandleData_props data

/-- C5: `geocodeLocation` is total (the model is a function, matching the
source, which catches every throw), and for every input text — including the
empty and whitespace-only ones — and every behaviour of the geocoding
service, the returned latitude lies in [-90, 90], the longitude in
[-180, 180] (both are rationals, hence finite), and every failure
(`success = false`) returns exactly the fixed fallback coordinate
(29.5971, 79.659). -/
theorem C5_resolver_range_fallback (env : ℕ → GeoOutcome) (text : String)
    (maxRetries : ℕ) :
    (-90 ≤ (geocodeLocation env text maxRetries).1.lat ∧
     (geocodeLocation env text maxRetries).1.lat ≤ 90 ∧
     -180 ≤ (geocodeLocation env text maxRetries).1.lng ∧
     (geocodeLocation env text maxRetries).1.lng ≤ 180) ∧
    ((geocodeLocation env text maxRetries).1.success = false →
       (geocodeLocation env text maxRetries).1.lat = ALMORA_LAT ∧
       (geocodeLocation env text maxRetries).1.lng = ALMORA_LNG) := by
  unfold geocodeLocation
  by_cases ht : jsTrim text = ""
  · rw [if_pos ht]
    refine ⟨?_, fun _ => ⟨rfl, rfl⟩⟩
    norm_num [geoFallbackNoResult, ALMORA_LAT, ALMORA_LNG]
  · rw [if_neg ht]
    exact geocodeGo_props env (maxRetries + 1) 0

theorem C5_resolver_range_fallback_witness :
    (geocodeLocation eenvFailAllW "Unknown Place, Almora" 3).1.lat = ALMORA_LAT ∧
    (geocodeLocation eenvFailAllW "Unknown Place, Almora" 3).1.lng = ALMORA_LNG := by
  have hsucc :
      (geocodeLocation eenvFailAllW "Unknown Place, Almora" 3).1.success = false := by
    have h : geocodeLocation eenvFailAllW "Unknown Place, Almora" 3 =
        (geoFallbackExhausted, 4) := rfl
    rw [h]
    rfl
  exact (C5_resolver_range_fallback eenvFailAllW "Unknown Place, Almora" 3).2 hsucc

theorem geminiGo_skip (env : ℕ → GemOutcome) (link : String) :
    ∀ (k a rem : ℕ), (∀ i, i < k → env (a + i) = .fail) →
      geminiGo env link a (k + rem) = geminiGo env link (a + k) rem := by
  intro k
  induction k with
  | zero => intro a rem _; simp
  | succ n ih =>
    intro a rem h
    have h0 : env a = .fail := by simpa using h 0 (Nat.succ_pos n)
    rw [show n + 1 + rem = (n + rem) + 1 by omega]
    show geminiGo env link a ((n + rem) + 1) = _
    rw [geminiGo, h0]
    have hsh : ∀ i, i < n → env (a + 1 + i) = .fail := by
      intro i hi
      rw [show a + 1 + i = a + (i + 1) by omega]
      exact h (i + 1) (by omega)
    rw [ih (a + 1) rem hsh, show a + 1 + n = a + (n + 1) by omega]

theorem geocodeGo_skip (env : ℕ → GeoOutcome) :
    ∀ (k a rem : ℕ), (∀ i, i < k → env (a + i) = .fail) →
      geocodeGo env a (k + rem) = geocodeGo env (a + k) rem := by
  intro k
  induction k with
  | zero => intro a rem _; simp
  | succ n ih =>
    intro a rem h
    have h0 : env a = .fail := by simpa using h 0 (Nat.succ_pos n)
    rw [show n + 1 + rem = (n + rem) + 1 by omega]
    show geocodeGo env a ((n + rem) + 1) = _
    rw [geocodeGo, h0]
    have hsh : ∀ i, i < n → env (a + 1 + i) = .fail := by
      intro i hi
      rw [show a + 1 + i = a + (i + 1) by omega]
      exact h (i + 1) (by omega)
    rw [ih (a + 1) rem hsh, show a + 1 + n = a + (n + 1) by omega]

/-- C7: retry bound.  If the external call fails on the first k attempts
(k at most the configured maximum number of retries) and the attempt after
them succeeds, `processArticleWithGemini` returns the validated response
after exactly k+1 attempts, and `geocodeLocation` returns the successful
coordinates after exactly k+1 fetches; when every one of the maxRetries+1
attempts fails, `processArticleWithGemini` throws (`Except.error`) while
`geocodeLocation` returns the fallback with `success = false` instead of
throwing, after maxRetries+1 fetches. -/
theorem C7_retry_bound :
    (∀ (genv : ℕ → GemOutcome) (title content link : String)
       (maxRetries k : ℕ) (raw : RawGeminiResponse) (g : GeminiResponse),
       k ≤ maxRetries → (∀ i, i < k → genv i = .fail) → genv k = .ok raw →
       validateGeminiResponse raw link = some g →
       processArticleWithGemini genv title content link maxRetries =
         .ok (g, k + 1)) ∧
    (∀ (genv : ℕ → GemOutcome) (title content link : String) (maxRetries : ℕ),
       (∀ i, i ≤ maxRetries → genv i = .fail) →
       processArticleWithGemini genv title content link maxRetries =
         .error "Gemini API failed after all attempts") ∧
    (∀ (eenv : ℕ → GeoOutcome) (text : String) (maxRetries k : ℕ)
       (hit : NominatimHit) (rest : List NominatimHit) (la lo : ℚ),
       jsTrim text ≠ "" → k ≤ maxRetries → (∀ i, i < k → eenv i = .fail) →
       eenv k = .ok (hit :: rest) → hit.lat = some la → hit.lon = some lo →
       validateCoordinates (some la) (some lo) = true →
       geocodeLocation eenv text maxRetries =
         ({ lat := la, lng := lo, display_name := hit.display_name,
            success := true }, k + 1)) ∧
    (∀ (eenv : ℕ → GeoOutcome) (text : String) (maxRetries : ℕ),
       jsTrim text ≠ "" → (∀ i, i ≤ maxRetries → eenv i = .fail) →
       geocodeLocation eenv text maxRetries =
         (geoFallbackExhausted, maxRetries + 1)) := by
  refine ⟨?_, ?_, ?_, ?_⟩
  · intro genv title content link maxRetries k raw g hk hfail hok hval
    obtain ⟨m, rfl⟩ := Nat.exists_eq_add_of_le hk
    have hs := geminiGo_skip genv link k 0 (m + 1) (by simpa using hfail)
    rw [Nat.zero_add] at hs
    unfold processArticleWithGemini
    rw [show k + m + 1 = k + (m + 1) by omega, hs]
    simp [geminiGo, hok, hval]
  · intro genv title content link maxRetries h
    have hs := geminiGo_skip genv link (maxRetries + 1) 0 0
      (by intro i hi; simpa using h i (by omega))
    rw [Nat.zero_add, Nat.add_zero] at hs
    unfold processArticleWithGemini
    rw [hs]
    rfl
  · intro eenv text maxRetries k hit rest la lo htxt hk hfail hok hla hlo hv
    obtain ⟨m, rfl⟩ := Nat.exists_eq_add_of_le hk
    have hs := geocodeGo_skip eenv k 0 (m + 1) (by simpa using hfail)
    rw [Nat.zero_add] at hs
    unfold geocodeLocation
    rw [if_neg htxt, show k + m + 1 = k + (m + 1) by omega, hs]
    simp [geocodeGo, hok, geoHandleData, hla, hlo, hv]
  · intro eenv text maxRetries htxt h
    have hs := geocodeGo_skip eenv (maxRetries + 1) 0 0
      (by intro i hi; simpa using h i (by omega))
    rw [Nat.zero_add, Nat.add_zero] at hs
    unfold geocodeLocation
    rw [if_neg htxt, hs]
    rfl

theorem C7_retry_bound_witness :
    processArticleWithGemini genvTwoFailW "t" "c" linkW 3 = .ok (geminiW, 3) ∧
    processArticleWithGemini genvFailAllW "t" "c" linkW 3 =
      .error "Gemini API failed after all attempts" ∧
    geocodeLocation eenvTwoFailW "Mall Road" 3 =
      ({ lat := 29.6, lng := 79.66, display_name := "Mall Road, Almora",
         success := true }, 3) ∧
    geocodeLocation eenvFailAllW "Mall Road" 3 = (geoFallbackExhausted, 4) := by
  refine ⟨?_, ?_, ?_, ?_⟩
  · exact C7_retry_bound.1 genvTwoFailW "t" "c" linkW 3 2 rawGeminiW geminiW
      (by omega) (fun i hi => by simp [genvTwoFailW, hi]) rfl rfl
  · exact C7_retry_bound.2.1 genvFailAllW "t" "c" linkW 3 (fun i _ => rfl)
  · exact C7_retry_bound.2.2.1 eenvTwoFailW "Mall Road" 3 2 hitW [] 29.6 79.66
      (by decide) (by omega) (fun i hi => by simp [eenvTwoFailW, hi]) rfl rfl
      rfl (by simp [validateCoordinates, jsNumLt, jsNumGtQ]; norm_num)
  · exact C7_retry_bound.2.2.2 eenvFailAllW "Mall Road" 3 (by decide)
      (fun i _ => rfl)

theorem le_foldr_max (l : List ℕ) : ∀ x ∈ l, x ≤ l.foldr max 0 := by
  induction l with
  | nil => intro x hx; exact absurd hx (by simp)
  | cons a t ih =>
    intro x hx
    rcases List.mem_cons.mp hx with h | h
    · subst h; exact le_max_left _ _
    · exact le_trans (ih x h) (le_max_right _ _)

theorem freshId_gt (db : List StoredEvent) : ∀ e ∈ db, e.id < freshId db := by
  intro e he
  have h := le_foldr_max (db.map (fun x => x.id)) e.id (List.mem_map_of_mem _ he)
  unfold freshId
  omega

theorem find?_append_of_none {α : Type} (p : α → Bool) (l1 l2 : List α)
    (h : l1.find? p = none) : (l1 ++ l2).find? p = l2.find? p := by
  induction l1 with
  | nil => simp
  | cons a t ih =>
    cases hpa : p a with
    | true => simp [List.find?_cons, hpa] at h
    | false =>
      simp only [List.find?_cons, hpa] at h
      rw [List.cons_append, List.find?_cons, hpa]
      exact ih h

theorem map_id_of_eq {α : Type} (l : List α) (f : α → α)
    (h : ∀ e ∈ l, f e = e) : l.map f = l := by
  induction l with
  | nil => rfl
  | cons a t ih =>
    rw [List.map_cons, h a (by simp), ih (fun e he => h e (by simp [he]))]

theorem filter_eq_nil_of_find?_none {α : Type} (p : α → Bool) (l : List α)
    (h : l.find? p = none) : l.filter p = [] := by
  rw [List.filter_eq_nil_iff]
  intro a ha
  simpa using List.find?_eq_none.mp h a ha

theorem storeEvent_of_find_none (db : List StoredEvent) (doc : EventDoc)
    (hf : findOneByLink db doc.source_link = none) :
    storeEvent db doc =
      { db := db ++ [({ toEventDoc := doc, id := freshId db } : StoredEvent)],
        finalEvent := findOneByLink
          (db ++ [({ toEventDoc := doc, id := freshId db } : StoredEvent)])
          doc.source_link,
        isNew := true } := by
  unfold storeEvent
  rw [hf]

theorem storeEvent_of_find_some (db : List StoredEvent) (doc : EventDoc)
    (existing : StoredEvent)
    (hf : findOneByLink db doc.source_link = some existing) :
    storeEvent db doc =
      { db := db.map (fun e => if e.id = existing.id then
          ({ toEventDoc := { doc with createdAt := existing.createdAt },
             id := existing.id } : StoredEvent) else e),
        finalEvent := findOneByLink
          (db.map (fun e => if e.id = existing.id then
            ({ toEventDoc := { doc with createdAt := existing.createdAt },
               id := existing.id } : StoredEvent) else e)) doc.source_link,
        isNew := false } := by
  unfold storeEvent
  rw [hf]

/-- C1: for every pair of process requests with the same origin link,
executed one after the other on a store that does not yet contain that link,
exactly one stored event with that `source_link` exists afterwards; its
content fields are those of the second request (the second event document),
its `createdAt` equals the time recorded by the first request, its
`updatedAt` is the time of the second request, and the writer reports
`isNew = true` for the first request and `isNew = false` for the second. -/
theorem C1_upsert_idempotent (db : List StoredEvent) (d1 d2 : EventDoc)
    (s : String) (h0 : findOneByLink db s = none)
    (h1 : d1.source_link = s) (h2 : d2.source_link = s) :
    (storeEvent db d1).isNew = true ∧
    (storeEvent (storeEvent db d1).db d2).isNew = false ∧
    countBySourceLink (storeEvent (storeEvent db d1).db d2).db s = 1 ∧
    (storeEvent (storeEvent db d1).db d2).finalEvent =
      some { toEventDoc := { d2 with createdAt := d1.createdAt },
             id := freshId db } := by
  subst h1
  have e1 := storeEvent_of_find_none db d1 h0
  have hfind2 : findOneByLink
      (db ++ [({ toEventDoc := d1, id := freshId db } : StoredEvent)])
      d2.source_link =
      some ({ toEventDoc := d1, id := freshId db } : StoredEvent) := by
    unfold findOneByLink
    rw [h2, find?_append_of_none _ db _ h0]
    simp [List.find?_cons]
  have e2 := storeEvent_of_find_some
    (db ++ [({ toEventDoc := d1, id := freshId db } : StoredEvent)]) d2 _ hfind2
  have hdb2 : (db ++ [({ toEventDoc := d1, id := freshId db } : StoredEvent)]).map
      (fun e => if e.id = freshId db then
        ({ toEventDoc := { d2 with createdAt := d1.createdAt },
           id := freshId db } : StoredEvent) else e) =
      db ++ [({ toEventDoc := { d2 with createdAt := d1.createdAt },
                id := freshId db } : StoredEvent)] := by
    rw [List.map_append]
    congr 1
    · exact map_id_of_eq db _
        (fun e he => if_neg (Nat.ne_of_lt (freshId_gt db e he)))
    · simp
  have hfind3 : findOneByLink
      (db ++ [({ toEventDoc := { d2 with createdAt := d1.createdAt },
                 id := freshId db } : StoredEvent)]) d2.source_link =
      some ({ toEventDoc := { d2 with createdAt := d1.createdAt },
              id := freshId db } : StoredEvent) := by
    unfold findOneByLink
    rw [h2, find?_append_of_none _ db _ h0]
    simp [List.find?_cons, h2]
  refine ⟨by rw [e1], ?_, ?_, ?_⟩
  · simp only [e1]
    simp only [e2]
  · simp only [e1]
    simp only [e2]
    rw [hdb2]
    unfold countBySourceLink
    rw [List.filter_append, filter_eq_nil_of_find?_none _ db h0]
    simp [h2]
  · simp only [e1]
    simp only [e2]
    rw [hdb2, hfind3]

theorem C1_upsert_idempotent_witness :
    (storeEvent [] d1W).isNew = true ∧
    (storeEvent (storeEvent [] d1W).db d2W).isNew = false ∧
    countBySourceLink (storeEvent (storeEvent [] d1W).db d2W).db linkW = 1 ∧
    (storeEvent (storeEvent [] d1W).db d2W).finalEvent =
      some { toEventDoc := { d2W with createdAt := d1W.createdAt },
             id := freshId ([] : List StoredEvent) } :=
  C1_upsert_idempotent [] d1W d2W linkW rfl rfl rfl

/-- C2 counterexample: the write path by itself (route lines 83–108) is a
separate exists-check followed by an insert, not an atomic upsert: under the
interleaving find₁, find₂, write₁, write₂ of two concurrent runs carrying the
same origin link, both reads miss and both runs insert, leaving two distinct
stored records with that link — the claimed upsert atomicity does not come
from the write path. -/
theorem C2_write_path_race_counterexample :
    countLink
      (execSched false r1W r2W [true, false, true, false] [] .start .start)
      linkW = 2 := rfl

/-- C2 (amended): the write path is a separate `findOne` followed by a
conditional `insertOne`/`updateOne`; what prevents duplicates is the unique
index on `source_link` created by `setupMongoIndexes`.  With that index
enforced, every interleaving of two concurrent runs carrying the same origin
link, starting from a store without that link, ends with exactly one stored
record for it (the losing insert fails with a duplicate-key error instead of
creating a second record). -/
theorem C2_unique_index_single_record (r1 r2 : WriteReq) (s : String)
    (sched : List Bool) (hs : sched ∈ interleavings)
    (h1 : r1.slink = s) (h2 : r2.slink = s) :
    countLink (execSched true r1 r2 sched [] .start .start) s = 1 := by
  subst h1
  fin_cases hs <;>
    simp [execSched, stepRun, concFind, concFreshId, countLink, h2]

theorem C2_unique_index_single_record_witness :
    countLink
      (execSched true r1W r2W [true, false, true, false] [] .start .start)
      linkW = 1 :=
  C2_unique_index_single_record r1W r2W linkW [true, false, true, false]
    (by simp [interleavings]) rfl rfl

/-- C8: refuted on the code — the scrape orchestrator never forwards any
article.  `allArticles` is declared and never extended (and the
`ScraperResult` returned by `scrape()` does not even carry the articles), so
for a run in which one adapter successfully returns one candidate article,
the forwarded list is empty and zero articles are processed, although the
specified collected list is that one article. -/
theorem C8_orchestrator_drops_articles :
    (scrapeRoute [("Dainik Jagran Kumaon", .ok [artW])] processOkW).forwarded
      = [] ∧
    specCollectedArticles [("Dainik Jagran Kumaon", .ok [artW])] = [artW] ∧
    (scrapeRoute [("Dainik Jagran Kumaon", .ok [artW])]
      processOkW).articlesProcessed = 0 ∧
    (scrapeRoute [("Dainik Jagran Kumaon", .ok [artW])]
      processOkW).totalArticlesScraped = 1 ∧
    ([] : List ScrapedArticle) ≠ [artW] :=
  ⟨rfl, rfl, rfl, rfl, by decide⟩

/-- C9 (amended): every candidate article with an empty title or an empty
(or whitespace-only) body is rejected by `validateArticle` — it returns
false and records a diagnostic — and the per-article fetch loop keeps
exactly the candidates that pass validation, so rejected or failed
candidates are never forwarded while the remaining candidates continue to be
processed.  (Parseability of the origin link is not checked: see the
counterexample.) -/
theorem C9_adapter_validation :
    (∀ a : ScrapedArticle, a.title = "" ∨ jsTrim a.content = "" →
       (validateArticle a).1 = false ∧ (validateArticle a).2 ≠ []) ∧
    (∀ outcomes : List PageOutcome,
       (dainikFetchLoop outcomes).1 = outcomes.filterMap
         (fun o => match o with
           | .ok a => if (validateArticle a).1 then some a else none
           | .failed _ => none)) := by
  constructor
  · intro a ha
    simp only [validateArticle]
    split_ifs with g1 g2 g3 g4 g5 <;> simp_all
  · intro outcomes
    induction outcomes with
    | nil => rfl
    | cons o rest ih =>
      cases o with
      | ok a =>
        by_cases h : (validateArticle a).1 = true <;>
          simp [dainikFetchLoop, List.filterMap_cons, h, ih]
      | failed m => simp [dainikFetchLoop, List.filterMap_cons, ih]

theorem C9_adapter_validation_witness :
    ((validateArticle emptyTitleArtW).1 = false ∧
     (validateArticle emptyTitleArtW).2 ≠ []) ∧
    (dainikFetchLoop [PageOutcome.ok emptyTitleArtW, PageOutcome.ok artW]).1 =
      [artW] := by
  constructor
  · exact C9_adapter_validation.1 emptyTitleArtW (Or.inl rfl)
  · exact (C9_adapter_validation.2
      [PageOutcome.ok emptyTitleArtW, PageOutcome.ok artW]).trans (by rfl)

/-- C9 counterexample: a candidate whose origin link is non-empty but
unparsable (it contains no scheme separator, so `new URL` would throw) is
NOT rejected: `validateArticle` returns true and the fetch loop forwards
the candidate, contradicting the claim that unparsable origin links are
dropped by the validation. -/
theorem C9_unparsable_link_counterexample :
    urlHasSchemeColon badLinkArtW.sourceLink = false ∧
    (validateArticle badLinkArtW).1 = true ∧
    (dainikFetchLoop [PageOutcome.ok badLinkArtW]).1 = [badLinkArtW] := by
  refine ⟨by decide, rfl, rfl⟩

end Almora
